import Mathlib

/-!
Verification of the MySQL prepared statement adapter of this repository
(src/src/mysql.cpp). The MySQL client library and the Boost date time library
are external collaborators: driver calls are modelled as oracles (explicit
success flags and a stream of fetch outcomes) and the Boost duration
constructor is modelled after the Boost to_tick_count rule. Repository code
that is not under src (the SQL kind enumeration declared in the header) is
modelled from the spec where noted.
-/

namespace FastMySQL

/-- Modelled from the spec: the SQL kind enumeration Type is declared in a
repository header that is not under src. The spec fixes its layout
arithmetically: the unsigned integer block comes first, adding TINY maps an
unsigned kind onto its signed sibling, and the nullable block starts at
U_TINY_N so that subtracting U_TINY_N recovers the base kind. The kinds are
modelled as the Nat values of the C enumeration. -/
def U_TINY : Nat := 0

def U_SHORT : Nat := 1

def U_INT : Nat := 2

def U_BIGINT : Nat := 3

def TINY : Nat := 4

def SHORT : Nat := 5

def INT : Nat := 6

def BIGINT : Nat := 7

def FLOAT : Nat := 8

def DOUBLE : Nat := 9

def DATE : Nat := 10

def DATETIME : Nat := 11

def TIME : Nat := 12

def BLOB : Nat := 13

def TEXT : Nat := 14

def WTEXT : Nat := 15

def CHAR : Nat := 16

def BINARY : Nat := 17

def U_TINY_N : Nat := 18

def U_SHORT_N : Nat := 19

def U_INT_N : Nat := 20

def U_BIGINT_N : Nat := 21

def TINY_N : Nat := 22

def SHORT_N : Nat := 23

def INT_N : Nat := 24

def BIGINT_N : Nat := 25

-- Driver buffer type codes of the MySQL client library (enum enum_field_types).
def MYSQL_TYPE_TINY : Nat := 1

def MYSQL_TYPE_SHORT : Nat := 2

def MYSQL_TYPE_LONG : Nat := 3

def MYSQL_TYPE_FLOAT : Nat := 4

def MYSQL_TYPE_DOUBLE : Nat := 5

def MYSQL_TYPE_LONGLONG : Nat := 8

def MYSQL_TYPE_DATE : Nat := 10

def MYSQL_TYPE_TIME : Nat := 11

def MYSQL_TYPE_DATETIME : Nat := 12

def MYSQL_TYPE_BLOB : Nat := 252

def MYSQL_TYPE_STRING : Nat := 254

/-- Conversion object kinds: one per TypedConversion specialization. -/
inductive ConvKind where
  | date
  | datetime
  | time
  | blob
  | text
  | wtext
  deriving DecidableEq

/-- Conversion object as created by buildBindings: the temporal conversions own
only a MYSQL_TIME scratch; the variable width conversions additionally record
the column index and the driver type code used for second pass fetches. For
WTEXT the driver type code is modelled from the spec (like TEXT, hence
MYSQL_TYPE_STRING), since the TypedConversion constructor body lives in a
header that is not under src. -/
inductive Conv where
  | temporal (kind : ConvKind)
  | varlen (kind : ConvKind) (column : Nat) (bufferType : Nat)
  deriving DecidableEq

/-- One MYSQL_BIND descriptor as populated by Statement::buildBindings, plus
the conversion object (if any) the builder created for the column. memset
zeroes every field first; branches that do not set a field leave the zero. -/
structure FieldDesc where
  buffer_type : Nat
  is_unsigned : Bool
  buffer_length : Nat
  conv : Option Conv
  length_wired : Bool
  deriving DecidableEq

/-- Statement::buildBindings, body of the loop for column i with declared kind
typ0 and declared size sqlSize (set.getSqlSize, consulted only for CHAR and
BINARY). Mirrors src/src/mysql.cpp lines 145 to 261. -/
def buildBinding (i : Nat) (typ0 : Nat) (sqlSize : Nat) : FieldDesc :=
  let typ1 := if U_TINY_N ≤ typ0 then typ0 - U_TINY_N else typ0
  let uns := decide (typ1 ≤ U_BIGINT)
  let typ := if typ1 ≤ U_BIGINT then typ1 + TINY else typ1
  if typ = TINY then ⟨MYSQL_TYPE_TINY, uns, 0, none, false⟩
  else if typ = SHORT then ⟨MYSQL_TYPE_SHORT, uns, 0, none, false⟩
  else if typ = INT then ⟨MYSQL_TYPE_LONG, uns, 0, none, false⟩
  else if typ = BIGINT then ⟨MYSQL_TYPE_LONGLONG, uns, 0, none, false⟩
  else if typ = FLOAT then ⟨MYSQL_TYPE_FLOAT, uns, 0, none, false⟩
  else if typ = DOUBLE then ⟨MYSQL_TYPE_DOUBLE, uns, 0, none, false⟩
  else if typ = DATE then ⟨MYSQL_TYPE_DATE, uns, 0, some (Conv.temporal ConvKind.date), false⟩
  else if typ = DATETIME then ⟨MYSQL_TYPE_DATETIME, uns, 0, some (Conv.temporal ConvKind.datetime), false⟩
  else if typ = TIME then ⟨MYSQL_TYPE_TIME, uns, 0, some (Conv.temporal ConvKind.time), false⟩
  else if typ = BLOB then ⟨MYSQL_TYPE_BLOB, uns, 0, some (Conv.varlen ConvKind.blob i MYSQL_TYPE_BLOB), true⟩
  else if typ = TEXT then ⟨MYSQL_TYPE_STRING, uns, 0, some (Conv.varlen ConvKind.text i MYSQL_TYPE_STRING), true⟩
  else if typ = WTEXT then ⟨MYSQL_TYPE_STRING, uns, 0, some (Conv.varlen ConvKind.wtext i MYSQL_TYPE_STRING), true⟩
  else if typ = CHAR then ⟨MYSQL_TYPE_STRING, uns, sqlSize, none, false⟩
  else if typ = BINARY then ⟨MYSQL_TYPE_BLOB, uns, sqlSize, none, false⟩
  else ⟨0, uns, 0, none, false⟩

/-- Statement::buildBindings loop over all columns, starting at index i. Each
field of the row description supplies its declared kind and size. -/
def buildBindingsFrom : Nat → List (Nat × Nat) → List FieldDesc
  | _, [] => []
  | i, (t, s) :: rest => buildBinding i t s :: buildBindingsFrom (i + 1) rest

/-- Statement::buildBindings: allocates the descriptor vector with exactly one
descriptor per declared field (bindings.reset(new MYSQL_BIND[bindSize]) with
bindSize = set.numberOfSqlElements()). -/
def buildBindings (fields : List (Nat × Nat)) : List FieldDesc :=
  buildBindingsFrom 0 fields

/-- Source of the data pointer a descriptor is aimed at by bindBindings. -/
inductive BufSrc where
  | callerDirect (i : Nat)
  | callerPayload (i : Nat)
  | convScratch (i : Nat)
  deriving DecidableEq

/-- Mutable per execute state of one MYSQL_BIND descriptor as touched by
Statement::bindBindings (the fields it writes each execute). -/
structure BindSlot where
  is_null_wired : Bool
  buffer : Option BufSrc
  deriving DecidableEq

/-- Statement::bindBindings, body of the loop for column i: when the declared
kind is nullable the null indicator is wired to the nullness field and the
data pointer is replaced by the payload address; when a conversion exists for
the column its external slot receives the data pointer and the descriptor
buffer is aimed at the conversion scratch, otherwise the descriptor buffer is
aimed directly at the caller value. -/
def bindOne (hasConv : Bool) (i : Nat) (typ : Nat) (b : BindSlot) : BindSlot :=
  let nullable := U_TINY_N ≤ typ
  let data := if nullable then BufSrc.callerPayload i else BufSrc.callerDirect i
  if hasConv then
    ⟨if nullable then true else b.is_null_wired, some (BufSrc.convScratch i)⟩
  else
    ⟨if nullable then true else b.is_null_wired, some data⟩

/-- Statement::bindBindings loop: iterates i from 0 below the field count of
the supplied row description, writing descriptor i. It only writes existing
descriptors; it never resizes the vector. -/
def bindBindingsAux (convs : Nat → Bool) : Nat → List Nat → List BindSlot → List BindSlot
  | _, [], bs => bs
  | _, _ :: _, [] => []
  | i, t :: ts, b :: bs => bindOne (convs i) i t b :: bindBindingsAux convs (i + 1) ts bs

/-- Statement::bindBindings (src/src/mysql.cpp lines 264 to 285). -/
def bindBindings (convs : Nat → Bool) (types : List Nat) (bs : List BindSlot) : List BindSlot :=
  bindBindingsAux convs 0 types bs

/-- Boost time_duration construction from hour, minute and second components,
in total seconds. Boost computes the tick count with
time_resolution_traits::to_tick_count: when any component is negative the
result is minus the sum of the absolute values of all components, otherwise
the plain weighted sum. Modelled from the external Boost date time library. -/
def boostTimeDurationSecs (h m s : Int) : Int :=
  if h < 0 ∨ m < 0 ∨ s < 0 then
    -(((h.natAbs * 3600 + m.natAbs * 60 + s.natAbs : Nat) : Int))
  else h * 3600 + m * 60 + s

/-- Driver side MYSQL_TIME scratch record. The C fields are unsigned longs,
hence Nat, with a separate neg flag. -/
structure MYSQL_TIME_t where
  year : Nat
  month : Nat
  day : Nat
  hour : Nat
  minute : Nat
  second : Nat
  neg : Bool
  deriving DecidableEq

-- Component accessors of a Boost time_duration held as total seconds.
-- Boost divides the tick count with C truncating division, hence Int.div
-- and Int.mod (both truncate toward zero, matching C).
def durHours (d : Int) : Int := Int.tdiv d 3600

def durMinutes (d : Int) : Int := Int.tmod (Int.tdiv d 60) 60

def durSeconds (d : Int) : Int := Int.tmod d 60

/-- TypedConversion of Time, convertResult (src/src/mysql.cpp lines 316 to
319): constructs a duration from the hour negated when the neg flag is set
(the C expression internal.hour times minus one wraps in unsigned arithmetic
and converts back to minus hour in the signed hour argument of the
constructor) and the minute and second unchanged. -/
def timeConvertResult (t : MYSQL_TIME_t) : Int :=
  boostTimeDurationSecs (if t.neg then -(t.hour : Int) else (t.hour : Int))
    (t.minute : Int) (t.second : Int)

/-- TypedConversion of Time, convertParam (src/src/mysql.cpp lines 321 to
328): scratch receives the absolute hour, minute and second components of the
external duration, and neg records whether the hours component is negative. -/
def timeConvertParam (d : Int) : MYSQL_TIME_t :=
  { year := 0, month := 0, day := 0,
    hour := (durHours d).natAbs,
    minute := (durMinutes d).natAbs,
    second := (durSeconds d).natAbs,
    neg := decide (durHours d < 0) }

/-- Per column state of the parameter path for one nullable TIME field: the
wired null indicator, the external slot of the conversion, and the scratch
after the convertParam pass (none before it ran). -/
structure ParamSlot where
  is_null : Option Bool
  external : Option Int
  scratch : Option MYSQL_TIME_t
  deriving DecidableEq

/-- Statement::bindBindings for one nullable TIME parameter field: wires the
null indicator to the nullness member and stores the payload address into the
external slot of the conversion; the payload is not inspected here. -/
def bindNullableTimeSlot (nullness : Bool) (payload : Int) : ParamSlot :=
  { is_null := some nullness, external := some payload, scratch := none }

/-- Statement::execute parameter pass (src/src/mysql.cpp lines 92 to 93):
convertParam is invoked on every parameter side conversion, with no check of
the null indicator. -/
def runConvertParams (s : ParamSlot) : ParamSlot :=
  match s.external with
  | some d => { s with scratch := some (timeConvertParam d) }
  | none => s

/-- The full parameter path of Statement::execute for one nullable TIME field:
bindBindings followed by the convertParam pass. -/
def nullableTimeParamPath (nullness : Bool) (payload : Int) : ParamSlot :=
  runConvertParams (bindNullableTimeSlot nullness payload)

/-- State a variable width TypedConversion carries into grabIt: the recorded
column index, the recorded driver type code, and the driver reported length of
the fetched value. -/
structure ConvState where
  column : Nat
  bufferType : Nat
  length : Nat
  deriving DecidableEq

/-- One mysql_stmt_fetch_column call as issued by grabIt: the MYSQL_BIND it
passes records the buffer capacity, the length pointer, the type code, and the
column index argument. -/
structure ColumnFetch where
  column : Nat
  bufferType : Nat
  buffer_length : Nat
  deriving DecidableEq

/-- Outcome of TypedConversion::grabIt: the resulting container size, the
second pass per column fetch it issued (if any), and whether it threw because
mysql_stmt_fetch_column failed. -/
structure GrabOut where
  size : Nat
  fetch : Option ColumnFetch
  threw : Bool
  deriving DecidableEq

/-- TypedConversion::grabIt (src/src/mysql.cpp lines 332 to 346): resize the
container to the reported length when it differs, then, only when the length
is nonzero, issue the second pass fetch with the recorded column and type
code. -/
def grabIt (st : ConvState) (dataSize : Nat) (fetchColumnOk : Bool) : GrabOut :=
  let size1 := if dataSize ≠ st.length then st.length else dataSize
  if st.length ≠ 0 then
    { size := size1,
      fetch := some ⟨st.column, st.bufferType, st.length⟩,
      threw := !fetchColumnOk }
  else
    { size := size1, fetch := none, threw := false }

/-- Outcome of the wtext result conversion: whether the transcoding block
executed, and the transcoded output (none models the CodeCvt throw). -/
structure WtextOut where
  ranBlock : Bool
  output : Option (List Nat)
  deriving DecidableEq

/-- TypedConversion of Wtext, convertResult (src/src/mysql.cpp lines 358 to
377), with the byte level transcoding abstracted as a function argument. The
source line if(conversionBuffer.size()); is an if statement with an EMPTY
body (stray semicolon): the condition is evaluated and discarded and the
following block executes unconditionally, even on an empty buffer (where it
also takes front() of the empty vector). -/
def wtextConvertResult (conversionBuffer : List Nat)
    (transcode : List Nat → Option (List Nat)) : WtextOut :=
  let _outputSize := conversionBuffer.length
  match transcode conversionBuffer with
  | some out => { ranBlock := true, output := some out }
  | none => { ranBlock := true, output := none }

/-- Modelled from the spec: the intended guarded wtext result path, which
skips the transcoding block when the fetched byte buffer is empty and leaves
the output resized to zero. -/
def wtextConvertResultGuarded (conversionBuffer : List Nat)
    (transcode : List Nat → Option (List Nat)) : WtextOut :=
  if conversionBuffer.length ≠ 0 then
    match transcode conversionBuffer with
    | some out => { ranBlock := true, output := some out }
    | none => { ranBlock := true, output := none }
  else { ranBlock := false, output := some [] }

/-- Return code of one mysql_stmt_fetch call inside the result loop. -/
inductive FetchCode where
  | rowOk
  | errOne
  | noData
  deriving DecidableEq

/-- Driver behavior for one iteration of the result loop: whether
mysql_stmt_bind_result succeeds, and what mysql_stmt_fetch returns. -/
structure DriverStep where
  bindResultOk : Bool
  fetch : FetchCode
  deriving DecidableEq

/-- Driver oracle for one Statement::execute call. -/
structure Driver where
  bindParamOk : Bool
  executeOk : Bool
  steps : List DriverStep
  affected : Nat
  lastInsertId : Nat
  getFoundRowsOk : Bool
  foundRows : Nat
  deriving DecidableEq

/-- Observable events of Statement::execute, in program order. -/
inductive Ev where
  | convertParams
  | bindParamCall
  | executeCall
  | manufacture
  | bindResultCall
  | fetchCall
  | convertResults
  | trim
  | getFoundRowsCall
  | freeResult
  | reset
  deriving DecidableEq

/-- Boolean membership in a list, used to keep theorem statements free of
propositional hypotheses. -/
def hasItem {α : Type} [DecidableEq α] (e : α) : List α → Bool
  | [] => false
  | x :: xs => if x = e then true else hasItem e xs

/-- Result of the fetch loop of Statement::execute. container counts the
records currently in the result container (manufacture appends one, trim
discards the trailing one). ranOut marks the unreachable situation where the
oracle ran out of fetch outcomes while the loop still wanted one. -/
structure LoopOut where
  trace : List Ev
  manufactured : Nat
  trimmed : Nat
  container : Nat
  bindings : List BindSlot
  threw : Bool
  ranOut : Bool
  deriving DecidableEq

/-- Fetch loop of Statement::execute (src/src/mysql.cpp lines 104 to 122):
manufacture a fresh record, re-point the result descriptors at it with
bindBindings, bind the result descriptors to the driver (throwing on failure),
fetch one row; a fetch error throws, end of rows trims the speculative record
and exits, and a fetched row runs every result side convertResult. -/
def fetchLoop (ts : List Nat) (rC : Nat → Bool) : List BindSlot → List DriverStep → LoopOut
  | bs, [] => ⟨[], 0, 0, 0, bs, false, true⟩
  | bs, step :: rest =>
    let bs1 := bindBindingsAux rC 0 ts bs
    if step.bindResultOk = false then
      ⟨[Ev.manufacture, Ev.bindResultCall], 1, 0, 1, bs1, true, false⟩
    else
      match step.fetch with
      | FetchCode.errOne =>
        ⟨[Ev.manufacture, Ev.bindResultCall, Ev.fetchCall], 1, 0, 1, bs1, true, false⟩
      | FetchCode.noData =>
        ⟨[Ev.manufacture, Ev.bindResultCall, Ev.fetchCall, Ev.trim], 1, 1, 0, bs1, false, false⟩
      | FetchCode.rowOk =>
        let r := fetchLoop ts rC bs1 rest
        ⟨[Ev.manufacture, Ev.bindResultCall, Ev.fetchCall, Ev.convertResults] ++ r.trace,
          r.manufactured + 1, r.trimmed, r.container + 1, r.bindings, r.threw, r.ranOut⟩

/-- Result of one modelled Statement::execute call: the event trace, whether
it threw, the final values of the two out pointers (kept at their prior
values when not written), the manufacture and trim counts, the final record
count of the container, and the final descriptor vectors. -/
structure ExecOut where
  trace : List Ev
  threw : Bool
  ranOut : Bool
  rowsOut : Option Nat
  insertIdOut : Option Nat
  manufactured : Nat
  trimmed : Nat
  container : Nat
  paramsBindings : List BindSlot
  resultsBindings : List BindSlot
  deriving DecidableEq

/-- Statement::execute (src/src/mysql.cpp lines 85 to 134). Parameters, when
supplied, are re-pointed by bindBindings and every parameter side conversion
runs convertParam; the parameter descriptors are bound and the statement is
executed (each throwing on driver failure); with a result container the fetch
loop runs and, when the rows out pointer was supplied, getFoundRows fills it;
without a result container the rows out pointer receives the affected row
count and the insert id out pointer the last insert id. The final
mysql_stmt_free_result and mysql_stmt_reset calls are only reached on the
path that did not throw. -/
def execute (drv : Driver) (paramTypes : Option (List Nat)) (pC : Nat → Bool)
    (pB : List BindSlot) (resTypes : Option (List Nat)) (rC : Nat → Bool)
    (rB : List BindSlot) (insertId0 rows0 : Option Nat) : ExecOut :=
  let pB1 := match paramTypes with
    | some ts => bindBindingsAux pC 0 ts pB
    | none => pB
  let pTrace : List Ev := match paramTypes with
    | some _ => [Ev.convertParams]
    | none => []
  if drv.bindParamOk = false then
    ⟨pTrace ++ [Ev.bindParamCall], true, false, rows0, insertId0, 0, 0, 0, pB1, rB⟩
  else if drv.executeOk = false then
    ⟨pTrace ++ [Ev.bindParamCall, Ev.executeCall], true, false, rows0, insertId0, 0, 0, 0, pB1, rB⟩
  else
    match resTypes with
    | some ts =>
      let L := fetchLoop ts rC rB drv.steps
      let pre := pTrace ++ [Ev.bindParamCall, Ev.executeCall] ++ L.trace
      if L.ranOut = true then
        ⟨pre, false, true, rows0, insertId0, L.manufactured, L.trimmed, L.container, pB1, L.bindings⟩
      else if L.threw = true then
        ⟨pre, true, false, rows0, insertId0, L.manufactured, L.trimmed, L.container, pB1, L.bindings⟩
      else
        match rows0 with
        | some _ =>
          if drv.getFoundRowsOk = true then
            ⟨pre ++ [Ev.getFoundRowsCall, Ev.freeResult, Ev.reset], false, false,
              some drv.foundRows, insertId0, L.manufactured, L.trimmed, L.container, pB1, L.bindings⟩
          else
            ⟨pre ++ [Ev.getFoundRowsCall], true, false, rows0, insertId0,
              L.manufactured, L.trimmed, L.container, pB1, L.bindings⟩
        | none =>
          ⟨pre ++ [Ev.freeResult, Ev.reset], false, false, none, insertId0,
            L.manufactured, L.trimmed, L.container, pB1, L.bindings⟩
    | none =>
      let rowsOut := match rows0 with
        | some _ => some drv.affected
        | none => none
      let idOut := match insertId0 with
        | some _ => some drv.lastInsertId
        | none => none
      ⟨pTrace ++ [Ev.bindParamCall, Ev.executeCall, Ev.freeResult, Ev.reset],
        false, false, rowsOut, idOut, 0, 0, 0, pB1, rB⟩

/-- Driver oracle for Connection::connect: success of each driver step and
the error code and message each handle would report. -/
structure ConnDriver where
  initOk : Bool
  realConnectOk : Bool
  setCharsetOk : Bool
  stmtInitOk : Bool
  stmtPrepareOk : Bool
  connErrno : Nat
  connMsg : String
  stmtErrno : Nat
  stmtMsg : String
  deriving DecidableEq

/-- Observable events of Connection::connect. The close events exist so that
theorems can state that connect never emits them; releasing the handles is
done by the Connection destructor, not by connect. -/
inductive ConnEv where
  | initCall
  | realConnectCall
  | setCharsetCall
  | stmtInitCall
  | stmtPrepareCall
  | closeConnCall
  | closeStmtCall
  deriving DecidableEq

/-- Result of Connection::connect: its event trace and the coded exception it
threw (message and numeric code), none on success. -/
structure ConnectOut where
  trace : List ConnEv
  err : Option (String × Nat)
  deriving DecidableEq

/-- Connection::connect (src/src/mysql.cpp lines 25 to 45). Each failing step
throws Exceptions::MySQL built from the connection handle (mysql_error and
mysql_errno) except the prepare of the found rows statement, which throws
from the statement handle (mysql_stmt_error and mysql_stmt_errno); no step
releases a previously acquired handle before throwing. -/
def connect (d : ConnDriver) : ConnectOut :=
  if d.initOk = false then
    ⟨[ConnEv.initCall], some (d.connMsg, d.connErrno)⟩
  else if d.realConnectOk = false then
    ⟨[ConnEv.initCall, ConnEv.realConnectCall], some (d.connMsg, d.connErrno)⟩
  else if d.setCharsetOk = false then
    ⟨[ConnEv.initCall, ConnEv.realConnectCall, ConnEv.setCharsetCall],
      some (d.connMsg, d.connErrno)⟩
  else if d.stmtInitOk = false then
    ⟨[ConnEv.initCall, ConnEv.realConnectCall, ConnEv.setCharsetCall, ConnEv.stmtInitCall],
      some (d.connMsg, d.connErrno)⟩
  else if d.stmtPrepareOk = false then
    ⟨[ConnEv.initCall, ConnEv.realConnectCall, ConnEv.setCharsetCall, ConnEv.stmtInitCall,
        ConnEv.stmtPrepareCall],
      some (d.stmtMsg, d.stmtErrno)⟩
  else
    ⟨[ConnEv.initCall, ConnEv.realConnectCall, ConnEv.setCharsetCall, ConnEv.stmtInitCall,
        ConnEv.stmtPrepareCall],
      none⟩

/-- Concrete no conversion map, for closed statements. -/
def noConvs : Nat → Bool := fun _ => false

/-- Concrete transcoder that maps every buffer to an empty output, for closed
statements about the wtext path. -/
def emptyTranscode : List Nat → Option (List Nat) := fun _ => some []

lemma hasItem_append {α : Type} [DecidableEq α] (e : α) (xs ys : List α) :
    hasItem e (xs ++ ys) = (hasItem e xs || hasItem e ys) := by
  induction xs with
  | nil => rfl
  | cons x xs ih =>
    by_cases h : x = e <;> simp [hasItem, h, ih]

lemma bindBindingsAux_length (c : Nat → Bool) (ts : List Nat) :
    ∀ (i : Nat) (bs : List BindSlot), (bindBindingsAux c i ts bs).length = bs.length := by
  induction ts with
  | nil => intro i bs; rfl
  | cons t ts ih =>
    intro i bs
    cases bs with
    | nil => rfl
    | cons b bs => simp [bindBindingsAux, ih]

lemma buildBindingsFrom_length (fields : List (Nat × Nat)) :
    ∀ i, (buildBindingsFrom i fields).length = fields.length := by
  induction fields with
  | nil => intro i; rfl
  | cons f fields ih =>
    intro i
    obtain ⟨t, s⟩ := f
    simp [buildBindingsFrom, ih]

lemma fetchLoop_no_free_reset (ts : List Nat) (rC : Nat → Bool) (steps : List DriverStep) :
    ∀ bs, hasItem Ev.reset (fetchLoop ts rC bs steps).trace = false ∧
      hasItem Ev.freeResult (fetchLoop ts rC bs steps).trace = false := by
  induction steps with
  | nil => intro bs; exact ⟨rfl, rfl⟩
  | cons step rest ih =>
    intro bs
    obtain ⟨bok, fc⟩ := step
    cases bok <;> cases fc <;>
      simp [fetchLoop, hasItem, hasItem_append, ih]

lemma fetchLoop_bindings_length (ts : List Nat) (rC : Nat → Bool) (steps : List DriverStep) :
    ∀ bs, (fetchLoop ts rC bs steps).bindings.length = bs.length := by
  induction steps with
  | nil => intro bs; rfl
  | cons step rest ih =>
    intro bs
    obtain ⟨bok, fc⟩ := step
    cases bok <;> cases fc <;>
      simp [fetchLoop, ih, bindBindingsAux_length]

lemma fetchLoop_replicate (ts : List Nat) (rC : Nat → Bool) (N : Nat) :
    ∀ bs,
      (fetchLoop ts rC bs (List.replicate N ⟨true, FetchCode.rowOk⟩ ++ [⟨true, FetchCode.noData⟩])).manufactured = N + 1 ∧
      (fetchLoop ts rC bs (List.replicate N ⟨true, FetchCode.rowOk⟩ ++ [⟨true, FetchCode.noData⟩])).trimmed = 1 ∧
      (fetchLoop ts rC bs (List.replicate N ⟨true, FetchCode.rowOk⟩ ++ [⟨true, FetchCode.noData⟩])).container = N ∧
      (fetchLoop ts rC bs (List.replicate N ⟨true, FetchCode.rowOk⟩ ++ [⟨true, FetchCode.noData⟩])).threw = false ∧
      (fetchLoop ts rC bs (List.replicate N ⟨true, FetchCode.rowOk⟩ ++ [⟨true, FetchCode.noData⟩])).ranOut = false := by
  induction N with
  | zero =>
    intro bs
    simp [fetchLoop]
  | succ n ih =>
    intro bs
    rw [List.replicate_succ]
    have h := ih (bindBindingsAux rC 0 ts bs)
    simp only [List.cons_append]
    simp [fetchLoop, h.1, h.2.1, h.2.2.1, h.2.2.2.1, h.2.2.2.2]

/-- C1: for the TIME kind, convertResult forms the duration from the negated
hour with the minute and second components non negative; when the neg flag is
set and the hour is positive the signed duration equals minus the full
magnitude hour times 3600 plus minute times 60 plus second, in seconds. -/
theorem time_result_negative (t : MYSQL_TIME_t) (hneg : t.neg = true) (hh : 0 < t.hour) :
    timeConvertResult t = -(((t.hour * 3600 + t.minute * 60 + t.second : Nat) : Int)) := by
  have hcond : (-(t.hour : Int) < 0 ∨ ((t.minute : Nat) : Int) < 0 ∨ ((t.second : Nat) : Int) < 0) := by
    left
    omega
  unfold timeConvertResult boostTimeDurationSecs
  rw [hneg]
  simp only [if_true, if_pos hcond]
  simp [Int.natAbs_neg]

/-- Witness for C1: the literal scenario of the spec, a TIME column holding
minus 04:05:06 (neg set, hour 4, minute 5, second 6), converts to a signed
duration of exactly minus 14706 seconds. -/
theorem time_result_negative_witness :
    timeConvertResult ⟨0, 0, 0, 4, 5, 6, true⟩ = -14706 := by
  have h := time_result_negative ⟨0, 0, 0, 4, 5, 6, true⟩ rfl (by decide)
  rw [h]
  decide

/-- Counterexample for C3: a nullable TIME parameter whose null indicator is
true does NOT leave its payload unread: executing the parameter path with two
different payloads (one hour versus two hours), both with null set, produces
different driver visible scratch, because convertParam runs unconditionally. -/
theorem null_time_payload_observed :
    (nullableTimeParamPath true 3600).scratch ≠ (nullableTimeParamPath true 7200).scratch := by
  decide

/-- C3 as amended: for a nullable TIME parameter, bindBindings wires the null
indicator to the nullness member and points the conversion at the payload,
and the convertParam pass then runs unconditionally, so the driver visible
scratch equals convertParam of the payload regardless of the null indicator:
the payload bytes of a null conversion backed field ARE read on the parameter
path. -/
theorem null_time_param_path_spec (n : Bool) (d : Int) :
    (nullableTimeParamPath n d).is_null = some n ∧
    (nullableTimeParamPath n d).external = some d ∧
    (nullableTimeParamPath n d).scratch = some (timeConvertParam d) := by
  exact ⟨rfl, rfl, rfl⟩

/-- Counterexample for C4: when mysql_real_connect fails after a successful
mysql_init, connect throws the coded error but the trace contains no close of
the initialized connection handle, so the partially acquired resource was not
released before the error propagated. -/
theorem connect_failure_leaks_handle :
    (connect ⟨true, false, true, true, true, 2003, "lost", 0, ""⟩).err = some ("lost", 2003) ∧
    hasItem ConnEv.closeConnCall (connect ⟨true, false, true, true, true, 2003, "lost", 0, ""⟩).trace = false := by
  constructor
  · rfl
  · rfl

/-- C4 as amended: Connection::connect raises an error carrying the driver
numeric code and textual message at every failing step (taken from the
connection handle for init, real connect, set character set and statement
init, and from the statement handle for statement prepare), but it releases
nothing before the error propagates: no connect path ever emits a close of
the connection handle or of the found rows statement. -/
theorem connect_error_codes_no_release (b2 b3 b4 b5 : Bool) (ce se : Nat) (cm sm : String)
    (d : ConnDriver) :
    (connect ⟨false, b2, b3, b4, b5, ce, cm, se, sm⟩).err = some (cm, ce) ∧
    (connect ⟨true, false, b3, b4, b5, ce, cm, se, sm⟩).err = some (cm, ce) ∧
    (connect ⟨true, true, false, b4, b5, ce, cm, se, sm⟩).err = some (cm, ce) ∧
    (connect ⟨true, true, true, false, b5, ce, cm, se, sm⟩).err = some (cm, ce) ∧
    (connect ⟨true, true, true, true, false, ce, cm, se, sm⟩).err = some (sm, se) ∧
    hasItem ConnEv.closeConnCall (connect d).trace = false ∧
    hasItem ConnEv.closeStmtCall (connect d).trace = false := by
  obtain ⟨i1, i2, i3, i4, i5, a, b, c, e⟩ := d
  refine ⟨rfl, rfl, rfl, rfl, rfl, ?_, ?_⟩ <;>
    cases i1 <;> cases i2 <;> cases i3 <;> cases i4 <;> cases i5 <;> rfl

/-- C5: in buildBindings the unsigned normalization runs before the type
switch, so every unsigned integer kind (and its nullable variant) produces
exactly the descriptor of its signed sibling with only the unsigned flag set,
and the driver type codes are the signed ones: TINY to the 8 bit code, SHORT
to the 16 bit code, INT to the 32 bit code, BIGINT to the 64 bit code. -/
theorem unsigned_normalization (i s : Nat) :
    buildBinding i U_TINY s = { buildBinding i TINY s with is_unsigned := true } ∧
    buildBinding i U_SHORT s = { buildBinding i SHORT s with is_unsigned := true } ∧
    buildBinding i U_INT s = { buildBinding i INT s with is_unsigned := true } ∧
    buildBinding i U_BIGINT s = { buildBinding i BIGINT s with is_unsigned := true } ∧
    buildBinding i U_TINY_N s = { buildBinding i TINY_N s with is_unsigned := true } ∧
    buildBinding i U_SHORT_N s = { buildBinding i SHORT_N s with is_unsigned := true } ∧
    buildBinding i U_INT_N s = { buildBinding i INT_N s with is_unsigned := true } ∧
    buildBinding i U_BIGINT_N s = { buildBinding i BIGINT_N s with is_unsigned := true } ∧
    (buildBinding i U_TINY s).buffer_type = MYSQL_TYPE_TINY ∧
    (buildBinding i U_SHORT s).buffer_type = MYSQL_TYPE_SHORT ∧
    (buildBinding i U_INT s).buffer_type = MYSQL_TYPE_LONG ∧
    (buildBinding i U_BIGINT s).buffer_type = MYSQL_TYPE_LONGLONG := by
  exact ⟨rfl, rfl, rfl, rfl, rfl, rfl, rfl, rfl, rfl, rfl, rfl, rfl⟩

/-- C7: for a variable width column, grabIt always leaves the caller
container resized to exactly the driver reported length, and it issues the
second pass per column fetch exactly when that length is nonzero, with the
recorded column index and recorded driver type code (and the length as the
buffer capacity). -/
theorem grab_it_spec (st : ConvState) (dataSize : Nat) (ok : Bool) :
    (grabIt st dataSize ok).size = st.length ∧
    (grabIt st dataSize ok).fetch.isSome = decide (st.length ≠ 0) ∧
    (grabIt st dataSize ok).fetch =
      (if st.length ≠ 0 then some ⟨st.column, st.bufferType, st.length⟩ else none) := by
  unfold grabIt
  by_cases h : st.length ≠ 0 <;> by_cases h2 : dataSize ≠ st.length <;>
    simp_all

/-- C8: evaluation of the wtext result path at the failing input. The source
line if(conversionBuffer.size()); carries a stray semicolon, so on an empty
fetched value the transcoding block still executes (the code is the bug); the
guarded semantics the spec states as the intent skips it. -/
theorem wtext_block_unconditional :
    (wtextConvertResult [] emptyTranscode).ranBlock = true ∧
    (wtextConvertResultGuarded [] emptyTranscode).ranBlock = false := by
  exact ⟨rfl, rfl⟩

/-- Counterexample for C2: an execute whose parameter bind fails throws with
no reset in its trace: the statement was not returned to its Prepared state
before the error propagated. -/
theorem execute_throw_skips_reset :
    (execute ⟨false, true, [], 0, 0, true, 0⟩ none noConvs [] none noConvs [] none none).threw = true ∧
    hasItem Ev.reset (execute ⟨false, true, [], 0, 0, true, 0⟩ none noConvs [] none noConvs [] none none).trace = false := by
  exact ⟨rfl, rfl⟩

/-- C2 as amended: mysql_stmt_free_result and mysql_stmt_reset run exactly on
the executions that do not raise; every error path of Statement::execute (a
failed parameter bind, a failed driver execute, a failed result bind, a fetch
error, a failed found rows query) propagates WITHOUT running the reset step,
so a throwing execute leaves the statement un-reset. -/
theorem execute_reset_iff_no_throw (drv : Driver) (pT : Option (List Nat)) (pC : Nat → Bool)
    (pB : List BindSlot) (rT : Option (List Nat)) (rC : Nat → Bool) (rB : List BindSlot)
    (id0 rows0 : Option Nat)
    (hro : (execute drv pT pC pB rT rC rB id0 rows0).ranOut = false) :
    hasItem Ev.reset (execute drv pT pC pB rT rC rB id0 rows0).trace
        = !(execute drv pT pC pB rT rC rB id0 rows0).threw ∧
    hasItem Ev.freeResult (execute drv pT pC pB rT rC rB id0 rows0).trace
        = !(execute drv pT pC pB rT rC rB id0 rows0).threw := by
  obtain ⟨bp, eo, steps, aff, ii, g, fr⟩ := drv
  cases bp with
  | false => cases pT <;> simp [execute, hasItem, hasItem_append]
  | true =>
    cases eo with
    | false => cases pT <;> simp [execute, hasItem, hasItem_append]
    | true =>
      cases rT with
      | none =>
        cases pT <;> cases rows0 <;> cases id0 <;> simp [execute, hasItem, hasItem_append]
      | some ts =>
        have hfl := fetchLoop_no_free_reset ts rC steps rB
        rcases hL : fetchLoop ts rC rB steps with ⟨ltr, lman, ltrm, lcont, lbnd, lthrew, lran⟩
        rw [hL] at hfl
        cases lthrew <;> cases lran <;> cases pT <;> cases rows0 <;> cases g <;>
          simp_all [execute, hasItem, hasItem_append]

/-- Witness for C2 as amended: a successful execute with a result container
does run the reset step. -/
theorem execute_reset_iff_no_throw_witness :
    hasItem Ev.reset (execute ⟨true, true, [⟨true, FetchCode.noData⟩], 0, 0, true, 0⟩ none noConvs [] (some []) noConvs [] none none).trace = true := by
  have h := execute_reset_iff_no_throw ⟨true, true, [⟨true, FetchCode.noData⟩], 0, 0, true, 0⟩ none noConvs [] (some []) noConvs [] none none (by decide)
  rw [h.1]
  decide

/-- C6: when the driver reports N rows and then end of rows, the fetch loop of
Statement::execute calls manufacture exactly N plus one times, calls trim
exactly once, and the container ends with exactly N records. -/
theorem fetch_loop_row_count (N : Nat) (ts : List Nat) (rC : Nat → Bool) (rB : List BindSlot)
    (pT : Option (List Nat)) (pC : Nat → Bool) (pB : List BindSlot)
    (aff ii fr : Nat) (id0 rows0 : Option Nat) :
    (execute ⟨true, true, List.replicate N ⟨true, FetchCode.rowOk⟩ ++ [⟨true, FetchCode.noData⟩], aff, ii, true, fr⟩ pT pC pB (some ts) rC rB id0 rows0).manufactured = N + 1 ∧
    (execute ⟨true, true, List.replicate N ⟨true, FetchCode.rowOk⟩ ++ [⟨true, FetchCode.noData⟩], aff, ii, true, fr⟩ pT pC pB (some ts) rC rB id0 rows0).trimmed = 1 ∧
    (execute ⟨true, true, List.replicate N ⟨true, FetchCode.rowOk⟩ ++ [⟨true, FetchCode.noData⟩], aff, ii, true, fr⟩ pT pC pB (some ts) rC rB id0 rows0).container = N := by
  have h := fetchLoop_replicate ts rC N rB
  cases pT <;> cases rows0 <;>
    simp [execute, h.1, h.2.1, h.2.2.1, h.2.2.2.1, h.2.2.2.2]

lemma execute_bindings_lengths (drv : Driver) (pT : Option (List Nat)) (pC : Nat → Bool)
    (pB : List BindSlot) (rT : Option (List Nat)) (rC : Nat → Bool) (rB : List BindSlot)
    (id0 rows0 : Option Nat) :
    (execute drv pT pC pB rT rC rB id0 rows0).paramsBindings.length = pB.length ∧
    (execute drv pT pC pB rT rC rB id0 rows0).resultsBindings.length = rB.length := by
  obtain ⟨bp, eo, steps, aff, ii, g, fr⟩ := drv
  cases bp with
  | false => cases pT <;> simp [execute, bindBindingsAux_length]
  | true =>
    cases eo with
    | false => cases pT <;> simp [execute, bindBindingsAux_length]
    | true =>
      cases rT with
      | none =>
        cases pT <;> cases rows0 <;> cases id0 <;> simp [execute, bindBindingsAux_length]
      | some ts =>
        have hbl := fetchLoop_bindings_length ts rC steps rB
        rcases hL : fetchLoop ts rC rB steps with ⟨ltr, lman, ltrm, lcont, lbnd, lthrew, lran⟩
        rw [hL] at hbl
        cases lthrew <;> cases lran <;> cases pT <;> cases rows0 <;> cases g <;>
          simp_all [execute, bindBindingsAux_length]

/-- C9: the descriptor vector built at init has exactly one descriptor per
declared field of the row description, the bindBindings pass preserves the
vector length, and execute (hence also its fetch loop) leaves both descriptor
vectors at their initial length: nothing ever resizes them. -/
theorem descriptor_lengths_fixed (fields : List (Nat × Nat)) (c : Nat → Bool) (i : Nat)
    (ts0 : List Nat) (bs : List BindSlot) (drv : Driver) (pT : Option (List Nat))
    (pC : Nat → Bool) (pB : List BindSlot) (rT : Option (List Nat)) (rC : Nat → Bool)
    (rB : List BindSlot) (id0 rows0 : Option Nat) :
    (buildBindings fields).length = fields.length ∧
    (bindBindingsAux c i ts0 bs).length = bs.length ∧
    (execute drv pT pC pB rT rC rB id0 rows0).paramsBindings.length = pB.length ∧
    (execute drv pT pC pB rT rC rB id0 rows0).resultsBindings.length = rB.length := by
  exact ⟨buildBindingsFrom_length fields 0, bindBindingsAux_length c ts0 i bs,
    (execute_bindings_lengths drv pT pC pB rT rC rB id0 rows0).1,
    (execute_bindings_lengths drv pT pC pB rT rC rB id0 rows0).2⟩

/-- C10: when a result container is supplied, execute never writes the insert
id out pointer (it keeps its prior value, on success and on every error
path); and when no result container is supplied a successful execute fills a
supplied insert id out pointer from the driver last insert id. -/
theorem insert_id_frame (drv : Driver) (pT : Option (List Nat)) (pC : Nat → Bool)
    (pB : List BindSlot) (ts : List Nat) (rC : Nat → Bool) (rB : List BindSlot)
    (id0 rows0 : Option Nat) (steps : List DriverStep) (aff ii fr : Nat) (g : Bool) (v : Nat) :
    (execute drv pT pC pB (some ts) rC rB id0 rows0).insertIdOut = id0 ∧
    (execute ⟨true, true, steps, aff, ii, g, fr⟩ pT pC pB none rC rB (some v) rows0).insertIdOut = some ii := by
  constructor
  · obtain ⟨bp, eo, st2, a2, i2, g2, f2⟩ := drv
    cases bp with
    | false => cases pT <;> simp [execute]
    | true =>
      cases eo with
      | false => cases pT <;> simp [execute]
      | true =>
        rcases hL : fetchLoop ts rC rB st2 with ⟨ltr, lman, ltrm, lcont, lbnd, lthrew, lran⟩
        cases lthrew <;> cases lran <;> cases pT <;> cases rows0 <;> cases g2 <;>
          simp_all [execute]
  · cases pT <;> cases rows0 <;> simp [execute]

end FastMySQL
